import Mathlib

/-!
Verification model of the calibration trajectory engine in
`src/cpp_extensions/elite_ext.cpp` (class EliteCalibration, plus the
rotation helpers matrixToRotVec / rotVecToMatrix at the top of the file).

Doubles are modelled as exact rationals (ℚ) in the point generation and
sequencing logic, and as reals (ℝ) in the trigonometric pose math.  A
`vector6d_t` pose is modelled as a total function ℕ → ℚ so that the
source's index arithmetic — including the write at the computed index
`ax_r2 + 1`, which equals 6 for the X/Y direction tables and therefore
falls outside the 6-element array — is represented faithfully: indices
0..5 are the pose, larger indices are memory just past it.

The source compares `sqrt(dist_sq) < tol`; the model compares
`dist_sq < tol^2`, which is equivalent because both sides are
nonnegative and squaring is strictly monotone.  Wall-clock sleeps,
`movel` script strings and ordinary progress log lines are not
modelled; the error log lines relevant to the behaviour under study
are.  The Python callbacks are modelled as call-indexed streams: the
pose provider is an `Option (ℕ → List ℚ)` consulted once per poll (in
call order), the capture trigger an `Option (ℕ → Except String Unit)`
whose `.error` outcome stands for a raised (and caught) exception.
-/

namespace EliteExt

/-- One vector6d_t pose, as flat memory: indices 0..5 hold x,y,z,rx,ry,rz
(metres / radians); larger indices are outside the array. -/
abbrev Pose := ℕ → ℚ

/-- The all-zero pose `{0, 0, 0, 0, 0, 0}`. -/
def zeroPose : Pose := fun _ => 0

/-- The compound assignment `p[i] += d` of the source. -/
def addAt (p : Pose) (i : ℕ) (d : ℚ) : Pose := fun j => if j = i then p j + d else p j

/-- The assignment `p[i] = v` of the source. -/
def setAt (p : Pose) (i : ℕ) (v : ℚ) : Pose := fun j => if j = i then v else p j

/-- get_current_pose_m_rad (elite_ext.cpp lines 355-374 and 518-537): calls
the Python pose callback; if the callback is absent or returns fewer than
6 values the all-zero pose is substituted, otherwise the values are
converted mm→m (/1000) and deg→rad (/57.29578). -/
def getCurrentPose (cb : Option (ℕ → List ℚ)) (call : ℕ) : Pose :=
  match cb with
  | none => zeroPose
  | some f =>
      if (f call).length < 6 then zeroPose
      else fun j =>
        if j < 3 then (f call).getD j 0 / 1000
        else if j < 6 then (f call).getD j 0 / 57.29578
        else 0

/-- Squared Euclidean distance over the three translation components
(the `for (int k = 0; k < 3; ++k) dist_sq += pow(cur[k]-target[k],2)` loops). -/
def distSq3 (a b : Pose) : ℚ := (a 0 - b 0) ^ 2 + (a 1 - b 1) ^ 2 + (a 2 - b 2) ^ 2

/-- Squared Euclidean norm over the three rotation components
(the `for (int k = 3; k < 6; ++k)` loop of the dither wait). -/
def rotSq3 (a b : Pose) : ℚ := (a 3 - b 3) ^ 2 + (a 4 - b 4) ^ 2 + (a 5 - b 5) ^ 2

/-- The translation-only arrival poll loop (elite_ext.cpp lines 424-437,
691-702 and 791-802): up to `fuel` polls of the pose provider; stops as
soon as the translation distance to `target` drops below 0.002 m.
Returns (converged?, number of polls consumed); `call` is the index of
the next pose-provider call.  `sqrt(dist_sq) < 0.002` is modelled as
`dist_sq < 0.002^2`. -/
def waitLoop (cb : Option (ℕ → List ℚ)) (target : Pose) (call : ℕ) : ℕ → Bool × ℕ
  | 0 => (false, 0)
  | fuel + 1 =>
      if distSq3 (getCurrentPose cb call) target < (0.002 : ℚ) ^ 2 then (true, 1)
      else
        let r := waitLoop cb target (call + 1) fuel
        (r.1, r.2 + 1)

/-- The dither arrival poll loop (elite_ext.cpp lines 739-757): same as
`waitLoop` but additionally requires the rotation components to be
within 0.05 rad (`sqrt(rot_sq) < 0.05` modelled squared). -/
def waitLoopDither (cb : Option (ℕ → List ℚ)) (target : Pose) (call : ℕ) : ℕ → Bool × ℕ
  | 0 => (false, 0)
  | fuel + 1 =>
      if distSq3 (getCurrentPose cb call) target < (0.002 : ℚ) ^ 2 ∧
          rotSq3 (getCurrentPose cb call) target < (0.05 : ℚ) ^ 2 then (true, 1)
      else
        let r := waitLoopDither cb target (call + 1) fuel
        (r.1, r.2 + 1)

/-- GRID_STEP (elite_ext.cpp line 113): 50 mm = 0.05 m. -/
def GRID_STEP : ℚ := 0.05

/-- The grid offsets `{-GRID_STEP, 0, GRID_STEP}` (line 400). -/
def steps : List ℚ := [-GRID_STEP, 0, GRID_STEP]

/-- The 9-point grid (elite_ext.cpp lines 402-411): for dz (outer) and dy
(inner) over `steps`, the point is the centre pose with
`p[1] = cy + dy` and `p[2] = cz + dz`. -/
def gridTargets (center : Pose) : List Pose :=
  steps.flatMap fun dz => steps.map fun dy =>
    setAt (setAt center 1 (center 1 + dy)) 2 (center 2 + dz)

/-- Accumulated state of a point-sequence run: the data_lines records
(point index, sampled pose), the error-relevant log lines, whether the
sequence aborted early, and the pose-provider call counter after the
run. -/
structure RunAcc where
  records : List (ℕ × Pose)
  logs : List String
  aborted : Bool
  calls : ℕ

/-- The grid capture step (elite_ext.cpp lines 460-470): a raised capture
exception is caught and turned into a log line, nothing else. -/
def captureLogGrid (capture : Option (ℕ → Except String Unit)) (idx : ℕ) : List String :=
  match capture with
  | none => []
  | some f =>
      match f idx with
      | .ok _ => []
      | .error e => ["Capture callback error: " ++ e]

/-- The pyramid capture step (elite_ext.cpp lines 774-784); the catch
message differs from the grid one. -/
def captureLogPyr (capture : Option (ℕ → Except String Unit)) (idx : ℕ) : List String :=
  match capture with
  | none => []
  | some f =>
      match f idx with
      | .ok _ => []
      | .error e => ["Capture error: " ++ e]

/-- The per-point loop of run_calibration (elite_ext.cpp lines 413-472):
move to the point, poll up to 100 times, on timeout log and break the
whole sequence; otherwise sample the current pose (one further provider
call), append the record, and invoke the capture callback under a
try/catch.  `idx` is the 1-based point index. -/
def runGridPoints (cb : Option (ℕ → List ℚ)) (capture : Option (ℕ → Except String Unit)) :
    List Pose → ℕ → ℕ → RunAcc
  | [], call, _ => ⟨[], [], false, call⟩
  | p :: rest, call, idx =>
      let w := waitLoop cb p call 100
      if w.1 then
        let sample := getCurrentPose cb (call + w.2)
        let r := runGridPoints cb capture rest (call + w.2 + 1) (idx + 1)
        ⟨(idx, sample) :: r.records, captureLogGrid capture idx ++ r.logs, r.aborted, r.calls⟩
      else
        ⟨[], ["Timeout waiting for robot to reach point"], true, call + w.2⟩

/-- Outcome of a whole calibration run: the centre pose it sampled, the
records, logs, the abort flag, and the rows written to the calibration
data file after the loop (the header line is implicit; the write happens
whether or not the loop aborted, provided the file opens). -/
structure GridOutcome where
  center : Pose
  records : List (ℕ × Pose)
  logs : List String
  aborted : Bool
  fileRows : List (ℕ × Pose)

/-- run_calibration (elite_ext.cpp lines 336-493): sample the centre pose
(provider call 0), build the 9 grid targets, run the per-point loop
starting at provider call 1 and point index 1, then write all
accumulated data_lines to the file. -/
def run_calibration (cb : Option (ℕ → List ℚ))
    (capture : Option (ℕ → Except String Unit)) : GridOutcome :=
  let center := getCurrentPose cb 0
  let r := runGridPoints cb capture (gridTargets center) 1 1
  ⟨center, r.records, r.logs, r.aborted, r.records⟩

/-- The direction-axis configuration (elite_ext.cpp lines 569-630):
height axis, the two width axes, the two tilt rotation axes, and the
height sign. -/
structure DirCfg where
  axH : ℕ
  axW1 : ℕ
  axW2 : ℕ
  axR1 : ℕ
  axR2 : ℕ
  hSign : ℚ

/-- The if-chain over the direction string (elite_ext.cpp lines 577-630);
an unrecognised string keeps the defaults of lines 570-575. -/
def dirCfg (direction : String) : DirCfg :=
  if direction = "Z+" then ⟨2, 0, 1, 3, 4, 1⟩
  else if direction = "Z-" then ⟨2, 0, 1, 3, 4, -1⟩
  else if direction = "Y+" then ⟨1, 0, 2, 3, 5, 1⟩
  else if direction = "Y-" then ⟨1, 0, 2, 3, 5, -1⟩
  else if direction = "X+" then ⟨0, 1, 2, 4, 5, 1⟩
  else if direction = "X-" then ⟨0, 1, 2, 4, 5, -1⟩
  else ⟨2, 0, 1, 3, 4, 1⟩

/-- corner_signs (elite_ext.cpp lines 634-638): the 4 corner sign pairs
(w1, w2), in traversal order. -/
def cornerSigns : ℕ → ℚ × ℚ
  | 0 => (-1, -1)
  | 1 => (-1, 1)
  | 2 => (1, 1)
  | _ => (1, -1)

/-- Pyramid target generation (elite_ext.cpp lines 646-676): for each
layer `i < layers`, ratio = i/(layers-1) (0 when layers ≤ 1), apply the
height offset and the two half-width corner offsets to the centre pose;
the rotation components are reassigned to the centre's (lines 670-672).
Widths and height arrive already converted to metres. -/
def pyramidTargets (center : Pose) (layers : ℕ) (baseWm topWm heightm : ℚ)
    (cfg : DirCfg) : List Pose :=
  (List.range layers).flatMap fun i =>
    (List.range 4).map fun k =>
      let ratio : ℚ := if 1 < layers then (i : ℚ) / ((layers : ℚ) - 1) else 0
      let layerOff := heightm * ratio * cfg.hSign
      let halfW := (baseWm - (baseWm - topWm) * ratio) / 2
      setAt (setAt (setAt
        (addAt (addAt (addAt center cfg.axH layerOff)
          cfg.axW1 ((cornerSigns k).1 * halfW))
          cfg.axW2 ((cornerSigns k).2 * halfW))
        3 (center 3)) 4 (center 4)) 5 (center 5)

/-- The dither (inward tilt) pose of point `i` (elite_ext.cpp lines
704-732): two tilt increments on `ax_r1` and `ax_r2`, the ±2° secondary
perturbation on index `ax_r2 + 1`, and the 0.0001 shift on index 2.
`tiltAngle` is in degrees, as in the source (converted by /57.29578
inside). -/
def ditherPose (cfg : DirCfg) (layers : ℕ) (tiltAngle : ℚ) (i : ℕ) (target : Pose) : Pose :=
  let layerIdx := i / 4
  let cornerIdx := i % 4
  let ratio : ℚ := if 1 < layers then (layerIdx : ℚ) / ((layers : ℚ) - 1) else 0
  let tiltMagnitude := tiltAngle / 57.29578 * (1 - ratio * 0.6)
  let signW1 := (cornerSigns cornerIdx).1
  let signW2 := (cornerSigns cornerIdx).2
  let signModifier : ℚ := if cornerIdx = 1 ∨ cornerIdx = 3 then -1 else 1
  addAt (addAt (addAt (addAt target
    cfg.axR1 (-signW2 * tiltMagnitude * signModifier))
    cfg.axR2 (-signW1 * tiltMagnitude * signModifier))
    (cfg.axR2 + 1) ((if cornerIdx % 2 = 0 then (2 : ℚ) else -2) * (1 / 57.29578)))
    2 0.0001

/-- The per-point loop of run_3d_calibration (elite_ext.cpp lines
679-803): move to the base point (200 polls, no abort on timeout), move
to the dither pose (50 polls), sample the pose, append the record,
capture under try/catch, restore to the base point (50 polls).  `i` is
the 0-based point index; the recorded / captured index is `i + 1`. -/
def runPyrPoints (cb : Option (ℕ → List ℚ)) (capture : Option (ℕ → Except String Unit))
    (cfg : DirCfg) (layers : ℕ) (tiltAngle : ℚ) :
    List Pose → ℕ → ℕ → RunAcc
  | [], call, _ => ⟨[], [], false, call⟩
  | p :: rest, call, i =>
      let wB := waitLoop cb p call 200
      let pd := ditherPose cfg layers tiltAngle i p
      let wD := waitLoopDither cb pd (call + wB.2) 50
      let sample := getCurrentPose cb (call + wB.2 + wD.2)
      let wR := waitLoop cb p (call + wB.2 + wD.2 + 1) 50
      let r := runPyrPoints cb capture cfg layers tiltAngle rest
        (call + wB.2 + wD.2 + 1 + wR.2) (i + 1)
      ⟨(i + 1, sample) :: r.records, captureLogPyr capture (i + 1) ++ r.logs, r.aborted, r.calls⟩

/-- Outcome of a pyramid run, as for the grid run. -/
structure PyrOutcome where
  center : Pose
  records : List (ℕ × Pose)
  logs : List String
  fileRows : List (ℕ × Pose)

/-- run_3d_calibration (elite_ext.cpp lines 495-824): sample the centre
pose (provider call 0), look up the direction table, convert widths and
height mm→m, generate the pyramid targets, run the per-point loop from
provider call 1 and point index 0, then write all data_lines. -/
def run_3d_calibration (layers : ℕ) (base_width top_width height tilt_angle : ℚ)
    (direction : String) (cb : Option (ℕ → List ℚ))
    (capture : Option (ℕ → Except String Unit)) : PyrOutcome :=
  let center := getCurrentPose cb 0
  let cfg := dirCfg direction
  let targets := pyramidTargets center layers (base_width / 1000) (top_width / 1000)
    (height / 1000) cfg
  let r := runPyrPoints cb capture cfg layers tilt_angle targets 1 0
  ⟨center, r.records, r.logs, r.records⟩

/-- Unfolding step of `waitLoop` when the current poll is in tolerance. -/
lemma waitLoop_conv (cb : Option (ℕ → List ℚ)) (target : Pose) (call fuel : ℕ)
    (h : distSq3 (getCurrentPose cb call) target < (0.002 : ℚ) ^ 2) :
    waitLoop cb target call (fuel + 1) = (true, 1) := by
  rw [waitLoop, if_pos h]

/-- Unfolding step of `waitLoop` when the current poll is out of tolerance. -/
lemma waitLoop_step (cb : Option (ℕ → List ℚ)) (target : Pose) (call fuel : ℕ)
    (h : ¬ distSq3 (getCurrentPose cb call) target < (0.002 : ℚ) ^ 2) :
    waitLoop cb target call (fuel + 1) =
      ((waitLoop cb target (call + 1) fuel).1, (waitLoop cb target (call + 1) fuel).2 + 1) := by
  rw [waitLoop, if_neg h]

/-- A provider that never enters tolerance exhausts the whole poll budget. -/
lemma waitLoop_never (cb : Option (ℕ → List ℚ)) (target : Pose)
    (h : ∀ n, ¬ distSq3 (getCurrentPose cb n) target < (0.002 : ℚ) ^ 2) :
    ∀ (fuel call : ℕ), waitLoop cb target call fuel = (false, fuel) := by
  intro fuel
  induction fuel with
  | zero => intro call; rfl
  | succ n ih => intro call; rw [waitLoop_step cb target call n (h call), ih]

/-- Number of pyramid targets: 4 per layer. -/
lemma pyramidTargets_length (center : Pose) (layers : ℕ) (baseWm topWm heightm : ℚ)
    (cfg : DirCfg) :
    (pyramidTargets center layers baseWm topWm heightm cfg).length = layers * 4 := by
  have key : ∀ (l : List ℕ) (g : ℕ → ℕ → Pose),
      (l.flatMap fun i => (List.range 4).map (g i)).length = l.length * 4 := by
    intro l g
    induction l with
    | nil => rfl
    | cons a t ih => simp [List.flatMap_cons, ih, Nat.succ_mul, Nat.add_comm]
  unfold pyramidTargets
  rw [key, List.length_range]

/-- Evaluated direction table rows (elite_ext.cpp lines 577-630). -/
theorem dirCfg_Zp : dirCfg ("Z+") = ⟨2, 0, 1, 3, 4, 1⟩ := rfl

theorem dirCfg_Zm : dirCfg ("Z-") = ⟨2, 0, 1, 3, 4, -1⟩ := rfl

theorem dirCfg_Yp : dirCfg ("Y+") = ⟨1, 0, 2, 3, 5, 1⟩ := rfl

theorem dirCfg_Ym : dirCfg ("Y-") = ⟨1, 0, 2, 3, 5, -1⟩ := rfl

theorem dirCfg_Xp : dirCfg ("X+") = ⟨0, 1, 2, 4, 5, 1⟩ := rfl

theorem dirCfg_Xm : dirCfg ("X-") = ⟨0, 1, 2, 4, 5, -1⟩ := rfl

/-- C1: for a pyramid run with direction_axis Y+ (and likewise X±), the
±2° secondary perturbation is written at pose index `ax_r2 + 1 = 6`,
i.e. outside the 6-element pose array (in C++ this write is out of
bounds): with tilt angle 0 isolating the perturbation, none of the
rotation components 3..5 of the dither pose changes, while the memory
cell at index 6 does.  Only the Z± rows put the perturbation at index 5.
This refutes the claim that for every supported direction_axis the
perturbation lands on one of indices 3..5 and on no component outside
the pose. -/
theorem c1_dither_perturbation_out_of_pose :
    (dirCfg ("Y+")).axR2 + 1 = 6 ∧ (dirCfg ("X+")).axR2 + 1 = 6 ∧ (dirCfg ("Z+")).axR2 + 1 = 5 ∧
    ditherPose (dirCfg ("Y+")) 1 0 0 zeroPose 3 = zeroPose 3 ∧
    ditherPose (dirCfg ("Y+")) 1 0 0 zeroPose 4 = zeroPose 4 ∧
    ditherPose (dirCfg ("Y+")) 1 0 0 zeroPose 5 = zeroPose 5 ∧
    ditherPose (dirCfg ("Y+")) 1 0 0 zeroPose 6 ≠ zeroPose 6 := by
  refine ⟨rfl, rfl, rfl, ?_, ?_, ?_, ?_⟩ <;>
    norm_num [ditherPose, dirCfg_Yp, cornerSigns, addAt, zeroPose]

/-- C2 counterexample: for direction_axis Y+ the height axis is index 1
and the width axes are 0 and 2, yet the dither pose leaves index 1
unchanged and shifts index 2 (a width axis) by 0.0001 — the epsilon
shift is applied on world Z, not on the height axis selected by the
direction, so a width-axis translation component changes. -/
theorem c2_eps_shift_counterexample :
    (dirCfg ("Y+")).axH = 1 ∧ (dirCfg ("Y+")).axW1 = 0 ∧ (dirCfg ("Y+")).axW2 = 2 ∧
    ditherPose (dirCfg ("Y+")) 1 0 0 zeroPose 1 = zeroPose 1 ∧
    ditherPose (dirCfg ("Y+")) 1 0 0 zeroPose 2 ≠ zeroPose 2 := by
  refine ⟨rfl, rfl, rfl, ?_, ?_⟩ <;>
    norm_num [ditherPose, dirCfg_Yp, cornerSigns, addAt, zeroPose]

/-- C2 amended: for every supported direction_axis, the dither pose keeps
translation components 0 and 1 equal to the base point's and shifts
component 2 (world Z) by exactly 0.0001 m — the epsilon shift always
lands on world Z, which is the height axis only for Z±. -/
theorem c2_dither_translation_z_shift (d : String)
    (hd : d ∈ (["Z+", "Z-", "Y+", "Y-", "X+", "X-"] : List String))
    (layers : ℕ) (tilt : ℚ) (i : ℕ) (target : Pose) :
    ditherPose (dirCfg d) layers tilt i target 0 = target 0 ∧
    ditherPose (dirCfg d) layers tilt i target 1 = target 1 ∧
    ditherPose (dirCfg d) layers tilt i target 2 = target 2 + 0.0001 := by
  fin_cases hd <;>
    refine ⟨?_, ?_, ?_⟩ <;>
      norm_num [ditherPose, dirCfg_Zp, dirCfg_Zm, dirCfg_Yp, dirCfg_Ym, dirCfg_Xp,
        dirCfg_Xm, addAt]

/-- Witness for `c2_dither_translation_z_shift` at direction Z+, two
layers, a 5° tilt, point 1 and the zero base pose. -/
theorem c2_dither_translation_z_shift_witness :
    "Z+" ∈ (["Z+", "Z-", "Y+", "Y-", "X+", "X-"] : List String) ∧
    (ditherPose (dirCfg ("Z+")) 2 5 1 zeroPose 0 = zeroPose 0 ∧
     ditherPose (dirCfg ("Z+")) 2 5 1 zeroPose 1 = zeroPose 1 ∧
     ditherPose (dirCfg ("Z+")) 2 5 1 zeroPose 2 = zeroPose 2 + 0.0001) :=
  ⟨by simp, c2_dither_translation_z_shift ("Z+") (by simp) 2 5 1 zeroPose⟩

/-- C5: for the 9-point grid with the built-in 50 mm step and centre pose
(0,0,0,0,0,0), the targets are exactly the 9 poses whose Y and Z
components range over {-0.05, 0, 0.05} m (±50 mm), with X and all
rotation components equal to the centre's 0, in the (dz outer, dy inner)
order: Y varies fastest, Z slowest. -/
theorem c5_grid9_zero_center :
    (gridTargets zeroPose).map (fun p => (p 0, p 1, p 2, p 3, p 4, p 5)) =
      [(0, -0.05, -0.05, 0, 0, 0), (0, 0, -0.05, 0, 0, 0), (0, 0.05, -0.05, 0, 0, 0),
       (0, -0.05, 0, 0, 0, 0), (0, 0, 0, 0, 0, 0), (0, 0.05, 0, 0, 0, 0),
       (0, -0.05, 0.05, 0, 0, 0), (0, 0, 0.05, 0, 0, 0), (0, 0.05, 0.05, 0, 0, 0)] := by
  norm_num [gridTargets, steps, GRID_STEP, setAt, zeroPose]

/-- C6: the grid always generates exactly 9 target points, and the
pyramid with layers ≥ 1 generates exactly layers × 4 (true for any
centre pose and any geometry parameters). -/
theorem c6_point_counts (center center2 : Pose) (layers : ℕ) (_h : 1 ≤ layers)
    (baseWm topWm heightm : ℚ) (cfg : DirCfg) :
    (gridTargets center).length = 9 ∧
    (pyramidTargets center2 layers baseWm topWm heightm cfg).length = layers * 4 :=
  ⟨rfl, pyramidTargets_length center2 layers baseWm topWm heightm cfg⟩

/-- Witness for `c6_point_counts`: 3 layers, 100/50/50 mm geometry. -/
theorem c6_point_counts_witness :
    (1 : ℕ) ≤ 3 ∧
    ((gridTargets zeroPose).length = 9 ∧
     (pyramidTargets zeroPose 3 0.1 0.05 0.05 (dirCfg ("Z+"))).length = 3 * 4) :=
  ⟨by norm_num, c6_point_counts zeroPose zeroPose 3 (by norm_num) 0.1 0.05 0.05 (dirCfg ("Z+"))⟩

/-- C7: the arrival wait loop. If the provider is out of tolerance on
polls 1 and 2 and within tolerance (translation distance below 0.002 m)
on poll 3, a budget of 10 polls converges after exactly 3 polls; a
provider that never enters tolerance exhausts a budget of 2 polls and
times out.  Convergence is reported at the first in-tolerance poll. -/
theorem c7_wait_convergence (cb cb2 : Option (ℕ → List ℚ)) (target target2 : Pose)
    (h0 : ¬ distSq3 (getCurrentPose cb 0) target < (0.002 : ℚ) ^ 2)
    (h1 : ¬ distSq3 (getCurrentPose cb 1) target < (0.002 : ℚ) ^ 2)
    (h2 : distSq3 (getCurrentPose cb 2) target < (0.002 : ℚ) ^ 2)
    (hnever : ∀ n, ¬ distSq3 (getCurrentPose cb2 n) target2 < (0.002 : ℚ) ^ 2) :
    waitLoop cb target 0 10 = (true, 3) ∧ waitLoop cb2 target2 0 2 = (false, 2) := by
  constructor
  · have e2 : waitLoop cb target 2 8 = (true, 1) := waitLoop_conv cb target 2 7 h2
    have e1 : waitLoop cb target 1 9 =
        ((waitLoop cb target 2 8).1, (waitLoop cb target 2 8).2 + 1) :=
      waitLoop_step cb target 1 8 h1
    have e0 : waitLoop cb target 0 10 =
        ((waitLoop cb target 1 9).1, (waitLoop cb target 1 9).2 + 1) :=
      waitLoop_step cb target 0 9 h0
    rw [e0, e1, e2]
  · exact waitLoop_never cb2 target2 hnever 2 0

/-- A mock pose provider 1 m away from the origin on polls 0 and 1 and at
the origin from poll 2 on (values in mm, as delivered by the callback). -/
def mockLateProvider : Option (ℕ → List ℚ) :=
  some fun n => if n < 2 then [1000, 0, 0, 0, 0, 0] else [0, 0, 0, 0, 0, 0]

/-- A mock pose provider that stays 1 m away from the origin forever. -/
def mockFarProvider : Option (ℕ → List ℚ) :=
  some fun _ => [1000, 0, 0, 0, 0, 0]

/-- Witness for `c7_wait_convergence`: the late provider against the zero
target converges on poll 3; the far provider times out after 2 polls. -/
theorem c7_wait_convergence_witness :
    (¬ distSq3 (getCurrentPose mockLateProvider 0) zeroPose < (0.002 : ℚ) ^ 2) ∧
    (¬ distSq3 (getCurrentPose mockLateProvider 1) zeroPose < (0.002 : ℚ) ^ 2) ∧
    (distSq3 (getCurrentPose mockLateProvider 2) zeroPose < (0.002 : ℚ) ^ 2) ∧
    (∀ n, ¬ distSq3 (getCurrentPose mockFarProvider n) zeroPose < (0.002 : ℚ) ^ 2) ∧
    (waitLoop mockLateProvider zeroPose 0 10 = (true, 3) ∧
     waitLoop mockFarProvider zeroPose 0 2 = (false, 2)) := by
  have h0 : ¬ distSq3 (getCurrentPose mockLateProvider 0) zeroPose < (0.002 : ℚ) ^ 2 := by
    norm_num [mockLateProvider, getCurrentPose, distSq3, zeroPose]
  have h1 : ¬ distSq3 (getCurrentPose mockLateProvider 1) zeroPose < (0.002 : ℚ) ^ 2 := by
    norm_num [mockLateProvider, getCurrentPose, distSq3, zeroPose]
  have h2 : distSq3 (getCurrentPose mockLateProvider 2) zeroPose < (0.002 : ℚ) ^ 2 := by
    norm_num [mockLateProvider, getCurrentPose, distSq3, zeroPose]
  have hn : ∀ n, ¬ distSq3 (getCurrentPose mockFarProvider n) zeroPose < (0.002 : ℚ) ^ 2 := by
    intro n
    norm_num [mockFarProvider, getCurrentPose, distSq3, zeroPose]
  exact ⟨h0, h1, h2, hn,
    c7_wait_convergence mockLateProvider mockFarProvider zeroPose zeroPose h0 h1 h2 hn⟩

/-- Unfolding of the grid loop when the first point's wait times out: the
sequence aborts with no further records. -/
lemma runGridPoints_cons_timeout (cb : Option (ℕ → List ℚ))
    (cap : Option (ℕ → Except String Unit)) (p : Pose) (rest : List Pose) (call idx : ℕ)
    (h : (waitLoop cb p call 100).1 = false) :
    runGridPoints cb cap (p :: rest) call idx =
      ⟨[], ["Timeout waiting for robot to reach point"], true,
        call + (waitLoop cb p call 100).2⟩ := by
  simp [runGridPoints, h]

/-- Unfolding of the grid loop when the first point's wait converges. -/
lemma runGridPoints_cons_conv (cb : Option (ℕ → List ℚ))
    (cap : Option (ℕ → Except String Unit)) (p : Pose) (rest : List Pose) (call idx : ℕ)
    (h : (waitLoop cb p call 100).1 = true) :
    runGridPoints cb cap (p :: rest) call idx =
      ⟨(idx, getCurrentPose cb (call + (waitLoop cb p call 100).2)) ::
         (runGridPoints cb cap rest (call + (waitLoop cb p call 100).2 + 1) (idx + 1)).records,
       captureLogGrid cap idx ++
         (runGridPoints cb cap rest (call + (waitLoop cb p call 100).2 + 1) (idx + 1)).logs,
       (runGridPoints cb cap rest (call + (waitLoop cb p call 100).2 + 1) (idx + 1)).aborted,
       (runGridPoints cb cap rest (call + (waitLoop cb p call 100).2 + 1) (idx + 1)).calls⟩ := by
  simp [runGridPoints, h]

/-- The records, abort flag and call counter of the grid loop do not
depend on the capture callback (its exceptions are swallowed). -/
lemma runGridPoints_capture_indep (cb : Option (ℕ → List ℚ))
    (cap cap' : Option (ℕ → Except String Unit)) :
    ∀ (pts : List Pose) (call idx : ℕ),
      (runGridPoints cb cap pts call idx).records =
        (runGridPoints cb cap' pts call idx).records ∧
      (runGridPoints cb cap pts call idx).aborted =
        (runGridPoints cb cap' pts call idx).aborted ∧
      (runGridPoints cb cap pts call idx).calls =
        (runGridPoints cb cap' pts call idx).calls := by
  intro pts
  induction pts with
  | nil => exact fun call idx => ⟨rfl, rfl, rfl⟩
  | cons p rest ih =>
      intro call idx
      by_cases h : (waitLoop cb p call 100).1 = true
      · rw [runGridPoints_cons_conv cb cap p rest call idx h,
          runGridPoints_cons_conv cb cap' p rest call idx h]
        obtain ⟨hr, ha, hc⟩ := ih (call + (waitLoop cb p call 100).2 + 1) (idx + 1)
        exact ⟨by simp [hr], ha, hc⟩
      · rw [Bool.not_eq_true] at h
        rw [runGridPoints_cons_timeout cb cap p rest call idx h,
          runGridPoints_cons_timeout cb cap' p rest call idx h]
        exact ⟨rfl, rfl, rfl⟩

/-- When the grid loop does not abort, it records every point. -/
lemma runGridPoints_length (cb : Option (ℕ → List ℚ))
    (cap : Option (ℕ → Except String Unit)) :
    ∀ (pts : List Pose) (call idx : ℕ),
      (runGridPoints cb cap pts call idx).aborted = false →
      (runGridPoints cb cap pts call idx).records.length = pts.length := by
  intro pts
  induction pts with
  | nil => intro call idx _; rfl
  | cons p rest ih =>
      intro call idx hab
      by_cases h : (waitLoop cb p call 100).1 = true
      · rw [runGridPoints_cons_conv cb cap p rest call idx h] at hab ⊢
        simpa using ih (call + (waitLoop cb p call 100).2 + 1) (idx + 1) hab
      · rw [Bool.not_eq_true] at h
        rw [runGridPoints_cons_timeout cb cap p rest call idx h] at hab
        simp at hab

/-- When the grid loop does not abort, every capture exception shows up in
the logs with the catch message of elite_ext.cpp line 468. -/
lemma runGridPoints_error_logged (cb : Option (ℕ → List ℚ)) (f : ℕ → Except String Unit) :
    ∀ (pts : List Pose) (call idx j : ℕ) (e : String),
      j < pts.length →
      (runGridPoints cb (some f) pts call idx).aborted = false →
      f (idx + j) = .error e →
      ("Capture callback error: " ++ e) ∈ (runGridPoints cb (some f) pts call idx).logs := by
  intro pts
  induction pts with
  | nil => intro call idx j e hj; simp at hj
  | cons p rest ih =>
      intro call idx j e hj hab he
      by_cases h : (waitLoop cb p call 100).1 = true
      · rw [runGridPoints_cons_conv cb (some f) p rest call idx h] at hab ⊢
        rcases j with _ | j
        · simp only [Nat.add_zero] at he
          simp [captureLogGrid, he]
        · have harg : idx + (j + 1) = (idx + 1) + j := by omega
          rw [harg] at he
          have hmem := ih (call + (waitLoop cb p call 100).2 + 1) (idx + 1) j e
            (by simpa using Nat.lt_of_succ_lt_succ hj) hab he
          simp only [List.mem_append]
          exact Or.inr hmem
      · rw [Bool.not_eq_true] at h
        rw [runGridPoints_cons_timeout cb (some f) p rest call idx h] at hab
        simp at hab

/-- Splitting a grid run at a prefix that did not abort: the rest of the
run continues from the prefix's call counter and point index. -/
lemma runGridPoints_append (cb : Option (ℕ → List ℚ))
    (cap : Option (ℕ → Except String Unit)) :
    ∀ (pre rest : List Pose) (call idx : ℕ),
      (runGridPoints cb cap pre call idx).aborted = false →
      runGridPoints cb cap (pre ++ rest) call idx =
        ⟨(runGridPoints cb cap pre call idx).records ++
           (runGridPoints cb cap rest (runGridPoints cb cap pre call idx).calls
             (idx + pre.length)).records,
         (runGridPoints cb cap pre call idx).logs ++
           (runGridPoints cb cap rest (runGridPoints cb cap pre call idx).calls
             (idx + pre.length)).logs,
         (runGridPoints cb cap rest (runGridPoints cb cap pre call idx).calls
           (idx + pre.length)).aborted,
         (runGridPoints cb cap rest (runGridPoints cb cap pre call idx).calls
           (idx + pre.length)).calls⟩ := by
  intro pre
  induction pre with
  | nil =>
      intro rest call idx _
      simp [runGridPoints]
  | cons p pre ih =>
      intro rest call idx hab
      by_cases h : (waitLoop cb p call 100).1 = true
      · rw [runGridPoints_cons_conv cb cap p pre call idx h] at hab
        simp only [] at hab
        rw [List.cons_append, runGridPoints_cons_conv cb cap p (pre ++ rest) call idx h,
          runGridPoints_cons_conv cb cap p pre call idx h,
          ih rest (call + (waitLoop cb p call 100).2 + 1) (idx + 1) hab]
        have e : idx + (p :: pre).length = idx + 1 + pre.length := by
          simp only [List.length_cons]
          omega
        rw [e]
        simp
      · rw [Bool.not_eq_true] at h
        rw [runGridPoints_cons_timeout cb cap p pre call idx h] at hab
        simp at hab

/-- The pyramid loop never aborts: it records every point. -/
lemma runPyrPoints_length (cb : Option (ℕ → List ℚ))
    (cap : Option (ℕ → Except String Unit)) (cfg : DirCfg) (layers : ℕ) (tilt : ℚ) :
    ∀ (pts : List Pose) (call i : ℕ),
      (runPyrPoints cb cap cfg layers tilt pts call i).records.length = pts.length := by
  intro pts
  induction pts with
  | nil => intro call i; rfl
  | cons p rest ih => intro call i; simp [runPyrPoints, ih]

/-- The records of the pyramid loop do not depend on the capture callback. -/
lemma runPyrPoints_capture_indep (cb : Option (ℕ → List ℚ))
    (cap cap' : Option (ℕ → Except String Unit)) (cfg : DirCfg) (layers : ℕ) (tilt : ℚ) :
    ∀ (pts : List Pose) (call i : ℕ),
      (runPyrPoints cb cap cfg layers tilt pts call i).records =
        (runPyrPoints cb cap' cfg layers tilt pts call i).records := by
  intro pts
  induction pts with
  | nil => intro call i; rfl
  | cons p rest ih => intro call i; simp [runPyrPoints, ih]

/-- With a provider that always yields the zero pose, every recorded
pyramid pose is the zero pose. -/
lemma runPyrPoints_records_zero (cb : Option (ℕ → List ℚ))
    (hz : ∀ n, getCurrentPose cb n = zeroPose)
    (cap : Option (ℕ → Except String Unit)) (cfg : DirCfg) (layers : ℕ) (tilt : ℚ) :
    ∀ (pts : List Pose) (call i : ℕ),
      ∀ r ∈ (runPyrPoints cb cap cfg layers tilt pts call i).records, r.2 = zeroPose := by
  intro pts
  induction pts with
  | nil => intro call i r hr; simp [runPyrPoints] at hr
  | cons p rest ih =>
      intro call i r hr
      simp only [runPyrPoints, List.mem_cons] at hr
      rcases hr with h | h
      · rw [h]
        exact hz _
      · exact ih _ _ r h

/-- C8: capture failure is non-fatal.  If the capture callback raises at
point idx+j of a grid sequence that otherwise completes, the run still
records every point, each record's pose being the pose sampled at that
point (the records equal those of any other capture callback, in
particular an always-succeeding one), and the exception is logged with
the catch message; for pyramid sequences the record count always equals
the point count and the records are likewise capture-independent.  In
the model the run is a total function, so the exception never reaches
the caller. -/
theorem c8_capture_failure_nonfatal (cb : Option (ℕ → List ℚ))
    (f : ℕ → Except String Unit) (cap2 : Option (ℕ → Except String Unit))
    (pts : List Pose) (call idx j : ℕ) (e : String)
    (hab : (runGridPoints cb (some f) pts call idx).aborted = false)
    (hj : j < pts.length) (he : f (idx + j) = .error e) :
    (runGridPoints cb (some f) pts call idx).records =
      (runGridPoints cb cap2 pts call idx).records ∧
    (runGridPoints cb (some f) pts call idx).records.length = pts.length ∧
    ("Capture callback error: " ++ e) ∈ (runGridPoints cb (some f) pts call idx).logs ∧
    ∀ (cfg : DirCfg) (layers : ℕ) (tilt : ℚ) (tgts : List Pose) (call2 i2 : ℕ),
      (runPyrPoints cb (some f) cfg layers tilt tgts call2 i2).records =
        (runPyrPoints cb cap2 cfg layers tilt tgts call2 i2).records ∧
      (runPyrPoints cb (some f) cfg layers tilt tgts call2 i2).records.length = tgts.length :=
  ⟨(runGridPoints_capture_indep cb (some f) cap2 pts call idx).1,
   runGridPoints_length cb (some f) pts call idx hab,
   runGridPoints_error_logged cb f pts call idx j e hj hab he,
   fun cfg layers tilt tgts call2 i2 =>
     ⟨runPyrPoints_capture_indep cb (some f) cap2 cfg layers tilt tgts call2 i2,
      runPyrPoints_length cb (some f) cfg layers tilt tgts call2 i2⟩⟩

/-- A pose provider that always reports the origin (values in mm). -/
def mockZeroProvider : Option (ℕ → List ℚ) :=
  some fun _ => [0, 0, 0, 0, 0, 0]

/-- A capture callback that raises exactly at point index 2. -/
def mockCapture : ℕ → Except String Unit :=
  fun i => if i = 2 then .error ("boom") else .ok ()

/-- Witness for `c8_capture_failure_nonfatal`: a two-point sequence at the
origin with a capture callback that raises at point 2. -/
theorem c8_capture_failure_nonfatal_witness :
    (runGridPoints mockZeroProvider (some mockCapture) [zeroPose, zeroPose] 1 1).aborted =
      false ∧
    1 < ([zeroPose, zeroPose] : List Pose).length ∧
    mockCapture (1 + 1) = .error ("boom") ∧
    ((runGridPoints mockZeroProvider (some mockCapture) [zeroPose, zeroPose] 1 1).records =
       (runGridPoints mockZeroProvider none [zeroPose, zeroPose] 1 1).records ∧
     (runGridPoints mockZeroProvider (some mockCapture) [zeroPose, zeroPose] 1 1).records.length =
       ([zeroPose, zeroPose] : List Pose).length ∧
     ("Capture callback error: " ++ "boom") ∈
       (runGridPoints mockZeroProvider (some mockCapture) [zeroPose, zeroPose] 1 1).logs ∧
     ∀ (cfg : DirCfg) (layers : ℕ) (tilt : ℚ) (tgts : List Pose) (call2 i2 : ℕ),
       (runPyrPoints mockZeroProvider (some mockCapture) cfg layers tilt tgts call2 i2).records =
         (runPyrPoints mockZeroProvider none cfg layers tilt tgts call2 i2).records ∧
       (runPyrPoints mockZeroProvider (some mockCapture) cfg layers tilt tgts
         call2 i2).records.length = tgts.length) := by
  have hcv : ∀ call : ℕ, waitLoop mockZeroProvider zeroPose call 100 = (true, 1) := fun call =>
    waitLoop_conv mockZeroProvider zeroPose call 99
      (by norm_num [mockZeroProvider, getCurrentPose, distSq3, zeroPose])
  have hab : (runGridPoints mockZeroProvider (some mockCapture)
      [zeroPose, zeroPose] 1 1).aborted = false := by
    simp [runGridPoints, hcv]
  have hj : 1 < ([zeroPose, zeroPose] : List Pose).length := by norm_num
  have he : mockCapture (1 + 1) = .error ("boom") := rfl
  exact ⟨hab, hj, he,
    c8_capture_failure_nonfatal mockZeroProvider mockCapture none
      [zeroPose, zeroPose] 1 1 1 ("boom") hab hj he⟩

/-- C9: when the base-move wait of some grid point exhausts its polls,
the run aborts — no later point is recorded — yet the records
accumulated before the failing point are exactly what ends up in the
calibration-data file. -/
theorem c9_grid_timeout_partial_flush (cb : Option (ℕ → List ℚ))
    (cap : Option (ℕ → Except String Unit)) (pre post : List Pose) (pj : Pose)
    (hdecomp : gridTargets (getCurrentPose cb 0) = pre ++ pj :: post)
    (hpre : (runGridPoints cb cap pre 1 1).aborted = false)
    (hfail : (waitLoop cb pj (runGridPoints cb cap pre 1 1).calls 100).1 = false) :
    (run_calibration cb cap).aborted = true ∧
    (run_calibration cb cap).records = (runGridPoints cb cap pre 1 1).records ∧
    (run_calibration cb cap).fileRows = (runGridPoints cb cap pre 1 1).records := by
  simp only [run_calibration]
  rw [hdecomp, runGridPoints_append cb cap pre (pj :: post) 1 1 hpre,
    runGridPoints_cons_timeout cb cap pj post _ _ hfail]
  simp

/-- A pose provider that reports the origin on call 0 (the centre
sample), the first grid point's position on calls 1 and 2, and the
origin again afterwards, so the second grid point's wait times out. -/
def mockStageProvider : Option (ℕ → List ℚ) :=
  some fun c => if c = 0 then [0, 0, 0, 0, 0, 0]
    else if c ≤ 2 then [0, -50, -50, 0, 0, 0] else [0, 0, 0, 0, 0, 0]

/-- The centre pose sampled by the staged provider. -/
def stageCenter : Pose := getCurrentPose mockStageProvider 0

/-- The first grid target of the staged run (dy = dz = -GRID_STEP). -/
def stagePt0 : Pose :=
  setAt (setAt stageCenter 1 (stageCenter 1 + -GRID_STEP)) 2 (stageCenter 2 + -GRID_STEP)

/-- The second grid target of the staged run (dy = 0, dz = -GRID_STEP). -/
def stagePt1 : Pose :=
  setAt (setAt stageCenter 1 (stageCenter 1 + 0)) 2 (stageCenter 2 + -GRID_STEP)

/-- Witness for `c9_grid_timeout_partial_flush`: with the staged provider
the first point converges and is recorded, the second times out; the one
accumulated record is flushed to the file. -/
theorem c9_grid_timeout_partial_flush_witness :
    gridTargets (getCurrentPose mockStageProvider 0) =
      [stagePt0] ++ stagePt1 :: (gridTargets stageCenter).drop 2 ∧
    (runGridPoints mockStageProvider none [stagePt0] 1 1).aborted = false ∧
    (waitLoop mockStageProvider stagePt1
      (runGridPoints mockStageProvider none [stagePt0] 1 1).calls 100).1 = false ∧
    ((run_calibration mockStageProvider none).aborted = true ∧
     (run_calibration mockStageProvider none).records =
       (runGridPoints mockStageProvider none [stagePt0] 1 1).records ∧
     (run_calibration mockStageProvider none).fileRows =
       (runGridPoints mockStageProvider none [stagePt0] 1 1).records) ∧
    (runGridPoints mockStageProvider none [stagePt0] 1 1).records.length = 1 := by
  have hdecomp : gridTargets (getCurrentPose mockStageProvider 0) =
      [stagePt0] ++ stagePt1 :: (gridTargets stageCenter).drop 2 := rfl
  have hconv0 : distSq3 (getCurrentPose mockStageProvider 1) stagePt0 < (0.002 : ℚ) ^ 2 := by
    norm_num [mockStageProvider, getCurrentPose, stagePt0, stageCenter, setAt, distSq3,
      zeroPose, GRID_STEP]
  have hw0 : waitLoop mockStageProvider stagePt0 1 100 = (true, 1) :=
    waitLoop_conv mockStageProvider stagePt0 1 99 hconv0
  have hpre : (runGridPoints mockStageProvider none [stagePt0] 1 1).aborted = false := by
    simp [runGridPoints, hw0]
  have hcalls : (runGridPoints mockStageProvider none [stagePt0] 1 1).calls = 3 := by
    simp [runGridPoints, hw0]
  have hnever : ∀ n, ¬ distSq3 (getCurrentPose mockStageProvider n) stagePt1 <
      (0.002 : ℚ) ^ 2 := by
    intro n
    rcases n with _ | (_ | (_ | m))
    · norm_num [mockStageProvider, getCurrentPose, distSq3, stagePt1, stageCenter, setAt,
        zeroPose, GRID_STEP]
    · norm_num [mockStageProvider, getCurrentPose, distSq3, stagePt1, stageCenter, setAt,
        zeroPose, GRID_STEP]
    · norm_num [mockStageProvider, getCurrentPose, distSq3, stagePt1, stageCenter, setAt,
        zeroPose, GRID_STEP]
    · have h0 : ¬ (m + 3 = 0) := by omega
      have h2 : ¬ (m + 3 ≤ 2) := by omega
      norm_num [mockStageProvider, getCurrentPose, distSq3, stagePt1, stageCenter, setAt,
        zeroPose, GRID_STEP, h0, h2]
  have hfail : (waitLoop mockStageProvider stagePt1
      (runGridPoints mockStageProvider none [stagePt0] 1 1).calls 100).1 = false := by
    rw [hcalls, waitLoop_never mockStageProvider stagePt1 hnever 100 3]
  have hlen : (runGridPoints mockStageProvider none [stagePt0] 1 1).records.length = 1 :=
    runGridPoints_length mockStageProvider none [stagePt0] 1 1 hpre
  exact ⟨hdecomp, hpre, hfail,
    c9_grid_timeout_partial_flush mockStageProvider none [stagePt0]
      ((gridTargets stageCenter).drop 2) stagePt1 hdecomp hpre hfail, hlen⟩

/-- With a provider stream that always degenerates to the zero pose, the
grid run samples the zero centre, times out on its very first point
(0.0707 m away from the zero pose) and aborts with no records; the
(empty) record list is still what is written to the file. -/
lemma runGrid_zero_aborts (cb : Option (ℕ → List ℚ))
    (cap : Option (ℕ → Except String Unit)) (hz : ∀ i, getCurrentPose cb i = zeroPose) :
    (run_calibration cb cap).center = zeroPose ∧
    (run_calibration cb cap).aborted = true ∧
    (run_calibration cb cap).records = [] ∧
    (run_calibration cb cap).fileRows = [] := by
  have hnever : ∀ n, ¬ distSq3 (getCurrentPose cb n)
      (setAt (setAt zeroPose 1 (zeroPose 1 + -GRID_STEP)) 2 (zeroPose 2 + -GRID_STEP)) <
      (0.002 : ℚ) ^ 2 := by
    intro n
    rw [hz n]
    norm_num [distSq3, setAt, zeroPose, GRID_STEP]
  have hfail : (waitLoop cb
      (setAt (setAt zeroPose 1 (zeroPose 1 + -GRID_STEP)) 2 (zeroPose 2 + -GRID_STEP))
      1 100).1 = false := by
    rw [waitLoop_never cb _ hnever 100 1]
  have hcons : gridTargets zeroPose =
      (setAt (setAt zeroPose 1 (zeroPose 1 + -GRID_STEP)) 2 (zeroPose 2 + -GRID_STEP)) ::
        (gridTargets zeroPose).tail := rfl
  simp only [run_calibration]
  rw [hz 0, hcons, runGridPoints_cons_timeout cb cap _ _ 1 1 hfail]
  exact ⟨rfl, rfl, rfl, rfl⟩

/-- C10 counterexample: with the pose callback absent, the grid run does
not continue the sequence — it aborts (first-point timeout against the
substituted zero pose) and records nothing, contradicting the claim
that the runs continue without error or abort. -/
theorem c10_counterexample :
    (run_calibration none none).aborted = true ∧
    (run_calibration none none).records = [] :=
  ⟨(runGrid_zero_aborts none none fun _ => rfl).2.1,
   (runGrid_zero_aborts none none fun _ => rfl).2.2.1⟩

/-- C10 amended: if the pose callback is absent or returns fewer than 6
values, every sampled pose (centre included) is the substituted zero
pose and every convergence check runs against it; the pyramid run then
continues through all layers × 4 points, recording the zero pose at each,
while the grid run times out on its first point and aborts with no
records (the empty record set is still flushed). -/
theorem c10_zero_pose_fallback (cb : Option (ℕ → List ℚ))
    (hcb : cb = none ∨ ∃ f, cb = some f ∧ ∀ i, (f i).length < 6)
    (cap cap2 : Option (ℕ → Except String Unit)) (layers : ℕ) (bw tw ht tilt : ℚ)
    (d : String) :
    (∀ i, getCurrentPose cb i = zeroPose) ∧
    (run_calibration cb cap).center = zeroPose ∧
    (run_calibration cb cap).aborted = true ∧
    (run_calibration cb cap).records = [] ∧
    (run_3d_calibration layers bw tw ht tilt d cb cap2).records.length = layers * 4 ∧
    ∀ r ∈ (run_3d_calibration layers bw tw ht tilt d cb cap2).records, r.2 = zeroPose := by
  have hz : ∀ i, getCurrentPose cb i = zeroPose := by
    intro i
    rcases hcb with rfl | ⟨f, rfl, hf⟩
    · rfl
    · simp [getCurrentPose, hf i]
  obtain ⟨hc, ha, hr, _⟩ := runGrid_zero_aborts cb cap hz
  refine ⟨hz, hc, ha, hr, ?_, ?_⟩
  · simp only [run_3d_calibration]
    rw [runPyrPoints_length, pyramidTargets_length]
  · simp only [run_3d_calibration]
    exact runPyrPoints_records_zero cb hz cap2 (dirCfg d) layers tilt _ 1 0

/-- A pose provider whose callback returns only 3 values. -/
def mockShortProvider : Option (ℕ → List ℚ) :=
  some fun _ => [1, 2, 3]

/-- Witness for `c10_zero_pose_fallback`: the 3-value provider with a
2-layer Z+ pyramid. -/
theorem c10_zero_pose_fallback_witness :
    (mockShortProvider = none ∨
      ∃ f, mockShortProvider = some f ∧ ∀ i, (f i).length < 6) ∧
    ((∀ i, getCurrentPose mockShortProvider i = zeroPose) ∧
     (run_calibration mockShortProvider none).center = zeroPose ∧
     (run_calibration mockShortProvider none).aborted = true ∧
     (run_calibration mockShortProvider none).records = [] ∧
     (run_3d_calibration 2 100 50 50 10 ("Z+") mockShortProvider none).records.length = 2 * 4 ∧
     ∀ r ∈ (run_3d_calibration 2 100 50 50 10 ("Z+") mockShortProvider none).records,
       r.2 = zeroPose) := by
  have hcb : mockShortProvider = none ∨
      ∃ f, mockShortProvider = some f ∧ ∀ i, (f i).length < 6 :=
    Or.inr ⟨_, rfl, fun i => by norm_num [mockShortProvider]⟩
  exact ⟨hcb, c10_zero_pose_fallback mockShortProvider hcb none none 2 100 50 50 10 ("Z+")⟩

/-- The Vec3 helper of elite_ext.cpp lines 24-40, over exact reals. -/
structure Vec3 where
  x : ℝ
  y : ℝ
  z : ℝ

/-- Vec3::length(). -/
noncomputable def Vec3.length (v : Vec3) : ℝ :=
  Real.sqrt (v.x * v.x + v.y * v.y + v.z * v.z)

/-- Vec3::normalize(): degenerate vectors fall back to (0,0,1). -/
noncomputable def Vec3.normalize (v : Vec3) : Vec3 :=
  if v.length < 1e-9 then ⟨0, 0, 1⟩
  else ⟨v.x / v.length, v.y / v.length, v.z / v.length⟩

/-- matrixToRotVec (elite_ext.cpp lines 46-84).  X, Y, Z are the three
orthonormal column vectors of the rotation matrix (r11 = X.x, r21 = X.y,
r31 = X.z, r12 = Y.x, ...); the result is the axis-angle vector
(rx, ry, rz).  The three branches are: near-identity trace, the 180°
singularity (with the double literal 3.141592653589793 standing for π),
and the generic case. -/
noncomputable def matrixToRotVec (X Y Z : Vec3) : ℝ × ℝ × ℝ :=
  if X.x + Y.y + Z.z ≥ 3 - 1e-6 then (0, 0, 0)
  else if X.x + Y.y + Z.z ≤ -1 + 1e-6 then
    let theta : ℝ := 3.141592653589793
    let axis0 : Vec3 :=
      if X.x > Y.y ∧ X.x > Z.z then
        ⟨Real.sqrt ((X.x + 1) / 2), (Y.x + X.y) / (2 * Real.sqrt ((X.x + 1) / 2)),
         (Z.x + X.z) / (2 * Real.sqrt ((X.x + 1) / 2))⟩
      else if Y.y > Z.z then
        ⟨(Y.x + X.y) / (2 * Real.sqrt ((Y.y + 1) / 2)), Real.sqrt ((Y.y + 1) / 2),
         (Z.y + Y.z) / (2 * Real.sqrt ((Y.y + 1) / 2))⟩
      else
        ⟨(Z.x + X.z) / (2 * Real.sqrt ((Z.z + 1) / 2)),
         (Z.y + Y.z) / (2 * Real.sqrt ((Z.z + 1) / 2)), Real.sqrt ((Z.z + 1) / 2)⟩
    let axis := axis0.normalize
    (axis.x * theta, axis.y * theta, axis.z * theta)
  else
    let theta := Real.arccos ((X.x + Y.y + Z.z - 1) / 2)
    let s := 2 * Real.sin theta
    let axis0 : Vec3 := ⟨(Y.z - Z.y) / s, (Z.x - X.z) / s, (X.y - Y.x) / s⟩
    let axis := axis0.normalize
    (axis.x * theta, axis.y * theta, axis.z * theta)

/-- rotVecToMatrix (elite_ext.cpp lines 87-109): Rodrigues formula; the
result triple (X, Y, Z) collects the matrix entries exactly as the
source assigns them. -/
noncomputable def rotVecToMatrix (rx ry rz : ℝ) : Vec3 × Vec3 × Vec3 :=
  let theta := Real.sqrt (rx * rx + ry * ry + rz * rz)
  if theta < 1e-6 then (⟨1, 0, 0⟩, ⟨0, 1, 0⟩, ⟨0, 0, 1⟩)
  else
    let kx := rx / theta
    let ky := ry / theta
    let kz := rz / theta
    let c := Real.cos theta
    let s := Real.sin theta
    let v := 1 - c
    (⟨kx * kx * v + c, kx * ky * v - kz * s, kx * kz * v + ky * s⟩,
     ⟨kx * ky * v + kz * s, ky * ky * v + c, ky * kz * v - kx * s⟩,
     ⟨kx * kz * v - ky * s, ky * kz * v + kx * s, kz * kz * v + c⟩)

/-- Column orthonormality and unit determinant of a 3×3 matrix with
entries r11..r33 (first index row, second column): exactly what it means
for (r11, r21, r31), (r12, r22, r32), (r13, r23, r33) to be the columns
of a rotation matrix. -/
structure IsRotation (r11 r12 r13 r21 r22 r23 r31 r32 r33 : ℝ) : Prop where
  colX : r11 ^ 2 + r21 ^ 2 + r31 ^ 2 = 1
  colY : r12 ^ 2 + r22 ^ 2 + r32 ^ 2 = 1
  colZ : r13 ^ 2 + r23 ^ 2 + r33 ^ 2 = 1
  colXY : r11 * r12 + r21 * r22 + r31 * r32 = 0
  colXZ : r11 * r13 + r21 * r23 + r31 * r33 = 0
  colYZ : r12 * r13 + r22 * r23 + r32 * r33 = 0
  det : r11 * (r22 * r33 - r23 * r32) - r12 * (r21 * r33 - r23 * r31) +
    r13 * (r21 * r32 - r22 * r31) = 1

variable {r11 r12 r13 r21 r22 r23 r31 r32 r33 : ℝ}

/-- Adjugate identity, entry (1,1): each entry equals its cofactor. -/
lemma cof11 (h : IsRotation r11 r12 r13 r21 r22 r23 r31 r32 r33) :
    r22 * r33 - r23 * r32 = r11 := by
  linear_combination r11 * h.det - (r22 * r33 - r23 * r32) * h.colX -
    (r23 * r31 - r21 * r33) * h.colXY - (r21 * r32 - r22 * r31) * h.colXZ

/-- Adjugate identity, entry (1,2). -/
lemma cof12 (h : IsRotation r11 r12 r13 r21 r22 r23 r31 r32 r33) :
    r23 * r31 - r21 * r33 = r12 := by
  linear_combination r12 * h.det - (r22 * r33 - r23 * r32) * h.colXY -
    (r23 * r31 - r21 * r33) * h.colY - (r21 * r32 - r22 * r31) * h.colYZ

/-- Adjugate identity, entry (1,3). -/
lemma cof13 (h : IsRotation r11 r12 r13 r21 r22 r23 r31 r32 r33) :
    r21 * r32 - r22 * r31 = r13 := by
  linear_combination r13 * h.det - (r22 * r33 - r23 * r32) * h.colXZ -
    (r23 * r31 - r21 * r33) * h.colYZ - (r21 * r32 - r22 * r31) * h.colZ

/-- Adjugate identity, entry (2,1). -/
lemma cof21 (h : IsRotation r11 r12 r13 r21 r22 r23 r31 r32 r33) :
    r13 * r32 - r12 * r33 = r21 := by
  linear_combination r21 * h.det - (r13 * r32 - r12 * r33) * h.colX -
    (r11 * r33 - r13 * r31) * h.colXY - (r12 * r31 - r11 * r32) * h.colXZ

/-- Adjugate identity, entry (2,2). -/
lemma cof22 (h : IsRotation r11 r12 r13 r21 r22 r23 r31 r32 r33) :
    r11 * r33 - r13 * r31 = r22 := by
  linear_combination r22 * h.det - (r13 * r32 - r12 * r33) * h.colXY -
    (r11 * r33 - r13 * r31) * h.colY - (r12 * r31 - r11 * r32) * h.colYZ

/-- Adjugate identity, entry (2,3). -/
lemma cof23 (h : IsRotation r11 r12 r13 r21 r22 r23 r31 r32 r33) :
    r12 * r31 - r11 * r32 = r23 := by
  linear_combination r23 * h.det - (r13 * r32 - r12 * r33) * h.colXZ -
    (r11 * r33 - r13 * r31) * h.colYZ - (r12 * r31 - r11 * r32) * h.colZ

/-- Adjugate identity, entry (3,1). -/
lemma cof31 (h : IsRotation r11 r12 r13 r21 r22 r23 r31 r32 r33) :
    r12 * r23 - r13 * r22 = r31 := by
  linear_combination r31 * h.det - (r12 * r23 - r13 * r22) * h.colX -
    (r13 * r21 - r11 * r23) * h.colXY - (r11 * r22 - r12 * r21) * h.colXZ

/-- Adjugate identity, entry (3,2). -/
lemma cof32 (h : IsRotation r11 r12 r13 r21 r22 r23 r31 r32 r33) :
    r13 * r21 - r11 * r23 = r32 := by
  linear_combination r32 * h.det - (r12 * r23 - r13 * r22) * h.colXY -
    (r13 * r21 - r11 * r23) * h.colY - (r11 * r22 - r12 * r21) * h.colYZ

/-- Adjugate identity, entry (3,3). -/
lemma cof33 (h : IsRotation r11 r12 r13 r21 r22 r23 r31 r32 r33) :
    r11 * r22 - r12 * r21 = r33 := by
  linear_combination r33 * h.det - (r12 * r23 - r13 * r22) * h.colXZ -
    (r13 * r21 - r11 * r23) * h.colYZ - (r11 * r22 - r12 * r21) * h.colZ

/-- First row of a rotation matrix is unit. -/
lemma row1 (h : IsRotation r11 r12 r13 r21 r22 r23 r31 r32 r33) :
    r11 ^ 2 + r12 ^ 2 + r13 ^ 2 = 1 := by
  linear_combination h.det - r11 * cof11 h - r12 * cof12 h - r13 * cof13 h

/-- Second row of a rotation matrix is unit. -/
lemma row2 (h : IsRotation r11 r12 r13 r21 r22 r23 r31 r32 r33) :
    r21 ^ 2 + r22 ^ 2 + r23 ^ 2 = 1 := by
  linear_combination h.det - r21 * cof21 h - r22 * cof22 h - r23 * cof23 h

/-- Third row of a rotation matrix is unit. -/
lemma row3 (h : IsRotation r11 r12 r13 r21 r22 r23 r31 r32 r33) :
    r31 ^ 2 + r32 ^ 2 + r33 ^ 2 = 1 := by
  linear_combination h.det - r31 * cof31 h - r32 * cof32 h - r33 * cof33 h

/-- Rows 1 and 2 of a rotation matrix are orthogonal. -/
lemma row12 (h : IsRotation r11 r12 r13 r21 r22 r23 r31 r32 r33) :
    r11 * r21 + r12 * r22 + r13 * r23 = 0 := by
  linear_combination (-r11) * cof21 h - r12 * cof22 h - r13 * cof23 h

/-- Rows 1 and 3 of a rotation matrix are orthogonal. -/
lemma row13 (h : IsRotation r11 r12 r13 r21 r22 r23 r31 r32 r33) :
    r11 * r31 + r12 * r32 + r13 * r33 = 0 := by
  linear_combination (-r11) * cof31 h - r12 * cof32 h - r13 * cof33 h

/-- Rows 2 and 3 of a rotation matrix are orthogonal. -/
lemma row23 (h : IsRotation r11 r12 r13 r21 r22 r23 r31 r32 r33) :
    r21 * r31 + r22 * r32 + r23 * r33 = 0 := by
  linear_combination (-r21) * cof31 h - r22 * cof32 h - r23 * cof33 h

/-- Squared antisymmetric difference against the first diagonal entry. -/
lemma rotv_sq_x (h : IsRotation r11 r12 r13 r21 r22 r23 r31 r32 r33) :
    (r32 - r23) ^ 2 =
      ((r11 + r22 + r33) + 1) * (2 * r11 - (r11 + r22 + r33) + 1) := by
  linear_combination 2 * cof11 h + row3 h + row2 h - h.colX

/-- Squared antisymmetric difference against the second diagonal entry. -/
lemma rotv_sq_y (h : IsRotation r11 r12 r13 r21 r22 r23 r31 r32 r33) :
    (r13 - r31) ^ 2 =
      ((r11 + r22 + r33) + 1) * (2 * r22 - (r11 + r22 + r33) + 1) := by
  linear_combination 2 * cof22 h + row3 h + row1 h - h.colY

/-- Squared antisymmetric difference against the third diagonal entry. -/
lemma rotv_sq_z (h : IsRotation r11 r12 r13 r21 r22 r23 r31 r32 r33) :
    (r21 - r12) ^ 2 =
      ((r11 + r22 + r33) + 1) * (2 * r33 - (r11 + r22 + r33) + 1) := by
  linear_combination 2 * cof33 h + row1 h + row2 h - h.colZ

/-- Product of the first two antisymmetric differences. -/
lemma rotv_prod_xy (h : IsRotation r11 r12 r13 r21 r22 r23 r31 r32 r33) :
    (r32 - r23) * (r13 - r31) = ((r11 + r22 + r33) + 1) * (r12 + r21) := by
  linear_combination cof21 h + cof12 h - h.colXY - row12 h

/-- Product of the first and third antisymmetric differences. -/
lemma rotv_prod_xz (h : IsRotation r11 r12 r13 r21 r22 r23 r31 r32 r33) :
    (r32 - r23) * (r21 - r12) = ((r11 + r22 + r33) + 1) * (r13 + r31) := by
  linear_combination cof31 h + cof13 h - h.colXZ - row13 h

/-- Product of the last two antisymmetric differences. -/
lemma rotv_prod_yz (h : IsRotation r11 r12 r13 r21 r22 r23 r31 r32 r33) :
    (r13 - r31) * (r21 - r12) = ((r11 + r22 + r33) + 1) * (r23 + r32) := by
  linear_combination cof32 h + cof23 h - h.colYZ - row23 h

/-- Normalizing an already-unit vector is the identity. -/
lemma Vec3.normalize_of_unit (v : Vec3) (hv : v.x * v.x + v.y * v.y + v.z * v.z = 1) :
    v.normalize = v := by
  unfold Vec3.normalize Vec3.length
  rw [hv, Real.sqrt_one]
  norm_num

/-- Diagonal Rodrigues entry of the round trip, reduced to the diagonal
trace identity. -/
lemma rodrigues_diag_aux (w s t rii : ℝ) (hs : s ≠ 0) (h3 : 3 - t ≠ 0) (h1 : t + 1 ≠ 0)
    (hS : 4 * s ^ 2 = (3 - t) * (t + 1)) (hw : w ^ 2 = (t + 1) * (2 * rii - t + 1)) :
    w / (2 * s) * (w / (2 * s)) * (1 - (t - 1) / 2) + (t - 1) / 2 = rii := by
  have hexp : w / (2 * s) * (w / (2 * s)) = w ^ 2 / (4 * s ^ 2) := by
    field_simp
    ring
  rw [hexp, hw, hS]
  field_simp
  ring

/-- Off-diagonal Rodrigues entry (plus branch) of the round trip. -/
lemma rodrigues_off_plus (w1 w2 w3 s t a b : ℝ) (hs : s ≠ 0) (h3 : 3 - t ≠ 0)
    (h1 : t + 1 ≠ 0) (hS : 4 * s ^ 2 = (3 - t) * (t + 1))
    (hw : w1 * w2 = (t + 1) * (a + b)) (hw3 : w3 = a - b) :
    w1 / (2 * s) * (w2 / (2 * s)) * (1 - (t - 1) / 2) + w3 / (2 * s) * s = a := by
  have hexp : w1 / (2 * s) * (w2 / (2 * s)) = w1 * w2 / (4 * s ^ 2) := by
    rw [div_mul_div_comm]
    congr 1
    ring
  have hexp3 : w3 / (2 * s) * s = w3 / 2 := by
    field_simp
    ring
  rw [hexp, hexp3, hw, hS, hw3]
  field_simp
  ring

/-- Off-diagonal Rodrigues entry (minus branch) of the round trip. -/
lemma rodrigues_off_minus (w1 w2 w3 s t a b : ℝ) (hs : s ≠ 0) (h3 : 3 - t ≠ 0)
    (h1 : t + 1 ≠ 0) (hS : 4 * s ^ 2 = (3 - t) * (t + 1))
    (hw : w1 * w2 = (t + 1) * (a + b)) (hw3 : w3 = a - b) :
    w1 / (2 * s) * (w2 / (2 * s)) * (1 - (t - 1) / 2) - w3 / (2 * s) * s = b := by
  have hexp : w1 / (2 * s) * (w2 / (2 * s)) = w1 * w2 / (4 * s ^ 2) := by
    rw [div_mul_div_comm]
    congr 1
    ring
  have hexp3 : w3 / (2 * s) * s = w3 / 2 := by
    field_simp
    ring
  rw [hexp, hexp3, hw, hS, hw3]
  field_simp
  ring

/-- The composition `axisAngleToMatrix ∘ matrixToAxisAngle` of the spec:
convert the matrix (columns X, Y, Z) to a rotation vector and back. -/
noncomputable def roundTrip (X Y Z : Vec3) : Vec3 × Vec3 × Vec3 :=
  rotVecToMatrix (matrixToRotVec X Y Z).1 (matrixToRotVec X Y Z).2.1
    (matrixToRotVec X Y Z).2.2

/-- C3 amended: for an orthonormal matrix M (columns X, Y, Z, unit
determinant) whose trace lies strictly between -1+1e-6 and 3-1e-6, the
composition reproduces the TRANSPOSE of M to within 1e-6 in every entry
(in fact exactly): the i-th output vector is the i-th ROW of M, because
rotVecToMatrix assembles its output vectors from the rows of the
Rodrigues matrix while matrixToRotVec reads its input vectors as
columns.  The original claim — that the composition reproduces M itself —
fails; see the counterexample. -/
theorem c3_roundtrip_transpose (X Y Z : Vec3)
    (h : IsRotation X.x Y.x Z.x X.y Y.y Z.y X.z Y.z Z.z)
    (htr1 : -1 + 1e-6 < X.x + Y.y + Z.z) (htr2 : X.x + Y.y + Z.z < 3 - 1e-6) :
    (|(roundTrip X Y Z).1.x - X.x| ≤ 1e-6 ∧
     |(roundTrip X Y Z).1.y - Y.x| ≤ 1e-6 ∧
     |(roundTrip X Y Z).1.z - Z.x| ≤ 1e-6) ∧
    (|(roundTrip X Y Z).2.1.x - X.y| ≤ 1e-6 ∧
     |(roundTrip X Y Z).2.1.y - Y.y| ≤ 1e-6 ∧
     |(roundTrip X Y Z).2.1.z - Z.y| ≤ 1e-6) ∧
    (|(roundTrip X Y Z).2.2.x - X.z| ≤ 1e-6 ∧
     |(roundTrip X Y Z).2.2.y - Y.z| ≤ 1e-6 ∧
     |(roundTrip X Y Z).2.2.z - Z.z| ≤ 1e-6) := by
  obtain ⟨x1, x2, x3⟩ := X
  obtain ⟨y1, y2, y3⟩ := Y
  obtain ⟨z1, z2, z3⟩ := Z
  dsimp only at h htr1 htr2 ⊢
  set A := Real.arccos ((x1 + y2 + z3 - 1) / 2) with hA
  have hcos : Real.cos A = (x1 + y2 + z3 - 1) / 2 :=
    Real.cos_arccos (by linarith) (by linarith)
  have hsin2 : Real.sin A ^ 2 = 1 - ((x1 + y2 + z3 - 1) / 2) ^ 2 := by
    rw [hA, Real.sin_arccos]
    exact Real.sq_sqrt (by nlinarith)
  have hsinpos : 0 < Real.sin A := by
    rw [hA, Real.sin_arccos]
    exact Real.sqrt_pos.mpr (by nlinarith)
  have hsne : Real.sin A ≠ 0 := ne_of_gt hsinpos
  have h3ne : 3 - (x1 + y2 + z3) ≠ 0 := ne_of_gt (by linarith)
  have h1ne : (x1 + y2 + z3) + 1 ≠ 0 := ne_of_gt (by linarith)
  have hS4 : 4 * Real.sin A ^ 2 = (3 - (x1 + y2 + z3)) * ((x1 + y2 + z3) + 1) := by
    rw [hsin2]; ring
  have hAnn : 0 ≤ A := by rw [hA]; exact Real.arccos_nonneg _
  have hAge : 1e-6 ≤ A := by
    by_contra hc
    push_neg at hc
    have hb : 1 - A ^ 2 / 2 ≤ Real.cos A := Real.one_sub_sq_div_two_le_cos
    have hA2 : A ^ 2 < 1e-12 := by
      nlinarith [mul_nonneg (by linarith : (0:ℝ) ≤ 1e-6 - A) hAnn]
    rw [hcos] at hb
    linarith
  have hApos : (0:ℝ) < A := lt_of_lt_of_le (by norm_num) hAge
  have hunit : (y3 - z2) / (2 * Real.sin A) * ((y3 - z2) / (2 * Real.sin A)) +
      (z1 - x3) / (2 * Real.sin A) * ((z1 - x3) / (2 * Real.sin A)) +
      (x2 - y1) / (2 * Real.sin A) * ((x2 - y1) / (2 * Real.sin A)) = 1 := by
    have hkey : ∀ u : ℝ, u / (2 * Real.sin A) * (u / (2 * Real.sin A)) =
        u ^ 2 / (4 * Real.sin A ^ 2) := by
      intro u
      rw [div_mul_div_comm]
      congr 1 <;> ring
    rw [hkey, hkey, hkey, div_add_div_same, div_add_div_same, hS4]
    have hsum : (y3 - z2) ^ 2 + (z1 - x3) ^ 2 + (x2 - y1) ^ 2 =
        (3 - (x1 + y2 + z3)) * ((x1 + y2 + z3) + 1) := by
      linear_combination rotv_sq_x h + rotv_sq_y h + rotv_sq_z h
    rw [hsum]
    exact div_self (mul_ne_zero h3ne h1ne)
  have hM : matrixToRotVec ⟨x1, x2, x3⟩ ⟨y1, y2, y3⟩ ⟨z1, z2, z3⟩ =
      ((y3 - z2) / (2 * Real.sin A) * A, (z1 - x3) / (2 * Real.sin A) * A,
       (x2 - y1) / (2 * Real.sin A) * A) := by
    unfold matrixToRotVec
    dsimp only
    rw [if_neg (not_le.mpr htr2), if_neg (not_le.mpr htr1), ← hA,
      Vec3.normalize_of_unit _ hunit]
  have hsum2 : (y3 - z2) / (2 * Real.sin A) * A * ((y3 - z2) / (2 * Real.sin A) * A) +
      (z1 - x3) / (2 * Real.sin A) * A * ((z1 - x3) / (2 * Real.sin A) * A) +
      (x2 - y1) / (2 * Real.sin A) * A * ((x2 - y1) / (2 * Real.sin A) * A) = A ^ 2 := by
    linear_combination A ^ 2 * hunit
  have hsqrtA : Real.sqrt
      ((y3 - z2) / (2 * Real.sin A) * A * ((y3 - z2) / (2 * Real.sin A) * A) +
       (z1 - x3) / (2 * Real.sin A) * A * ((z1 - x3) / (2 * Real.sin A) * A) +
       (x2 - y1) / (2 * Real.sin A) * A * ((x2 - y1) / (2 * Real.sin A) * A)) = A := by
    rw [hsum2]
    exact Real.sqrt_sq hAnn
  have hR : rotVecToMatrix ((y3 - z2) / (2 * Real.sin A) * A)
      ((z1 - x3) / (2 * Real.sin A) * A) ((x2 - y1) / (2 * Real.sin A) * A) =
      (⟨(y3 - z2) / (2 * Real.sin A) * ((y3 - z2) / (2 * Real.sin A)) * (1 - Real.cos A) +
          Real.cos A,
        (y3 - z2) / (2 * Real.sin A) * ((z1 - x3) / (2 * Real.sin A)) * (1 - Real.cos A) -
          (x2 - y1) / (2 * Real.sin A) * Real.sin A,
        (y3 - z2) / (2 * Real.sin A) * ((x2 - y1) / (2 * Real.sin A)) * (1 - Real.cos A) +
          (z1 - x3) / (2 * Real.sin A) * Real.sin A⟩,
       ⟨(y3 - z2) / (2 * Real.sin A) * ((z1 - x3) / (2 * Real.sin A)) * (1 - Real.cos A) +
          (x2 - y1) / (2 * Real.sin A) * Real.sin A,
        (z1 - x3) / (2 * Real.sin A) * ((z1 - x3) / (2 * Real.sin A)) * (1 - Real.cos A) +
          Real.cos A,
        (z1 - x3) / (2 * Real.sin A) * ((x2 - y1) / (2 * Real.sin A)) * (1 - Real.cos A) -
          (y3 - z2) / (2 * Real.sin A) * Real.sin A⟩,
       ⟨(y3 - z2) / (2 * Real.sin A) * ((x2 - y1) / (2 * Real.sin A)) * (1 - Real.cos A) -
          (z1 - x3) / (2 * Real.sin A) * Real.sin A,
        (z1 - x3) / (2 * Real.sin A) * ((x2 - y1) / (2 * Real.sin A)) * (1 - Real.cos A) +
          (y3 - z2) / (2 * Real.sin A) * Real.sin A,
        (x2 - y1) / (2 * Real.sin A) * ((x2 - y1) / (2 * Real.sin A)) * (1 - Real.cos A) +
          Real.cos A⟩) := by
    unfold rotVecToMatrix
    dsimp only
    rw [hsqrtA, if_neg (not_lt.mpr hAge)]
    simp only [mul_div_cancel_right₀ _ (ne_of_gt hApos)]
  have hw_xy : (y3 - z2) * (z1 - x3) = ((x1 + y2 + z3) + 1) * (x2 + y1) := by
    linear_combination rotv_prod_xy h
  have hw_yz : (z1 - x3) * (x2 - y1) = ((x1 + y2 + z3) + 1) * (y3 + z2) := by
    linear_combination rotv_prod_yz h
  unfold roundTrip
  rw [hM]
  dsimp only
  rw [hR]
  dsimp only
  rw [hcos]
  refine ⟨⟨?_, ?_, ?_⟩, ⟨?_, ?_, ?_⟩, ⟨?_, ?_, ?_⟩⟩
  · rw [rodrigues_diag_aux (y3 - z2) (Real.sin A) (x1 + y2 + z3) x1 hsne h3ne h1ne hS4
      (rotv_sq_x h), sub_self, abs_zero]
    norm_num
  · rw [rodrigues_off_minus (y3 - z2) (z1 - x3) (x2 - y1) (Real.sin A) (x1 + y2 + z3) x2 y1
      hsne h3ne h1ne hS4 hw_xy rfl, sub_self, abs_zero]
    norm_num
  · rw [rodrigues_off_plus (y3 - z2) (x2 - y1) (z1 - x3) (Real.sin A) (x1 + y2 + z3) z1 x3
      hsne h3ne h1ne hS4 (rotv_prod_xz h) rfl, sub_self, abs_zero]
    norm_num
  · rw [rodrigues_off_plus (y3 - z2) (z1 - x3) (x2 - y1) (Real.sin A) (x1 + y2 + z3) x2 y1
      hsne h3ne h1ne hS4 hw_xy rfl, sub_self, abs_zero]
    norm_num
  · rw [rodrigues_diag_aux (z1 - x3) (Real.sin A) (x1 + y2 + z3) y2 hsne h3ne h1ne hS4
      (rotv_sq_y h), sub_self, abs_zero]
    norm_num
  · rw [rodrigues_off_minus (z1 - x3) (x2 - y1) (y3 - z2) (Real.sin A) (x1 + y2 + z3) y3 z2
      hsne h3ne h1ne hS4 hw_yz rfl, sub_self, abs_zero]
    norm_num
  · rw [rodrigues_off_minus (y3 - z2) (x2 - y1) (z1 - x3) (Real.sin A) (x1 + y2 + z3) z1 x3
      hsne h3ne h1ne hS4 (rotv_prod_xz h) rfl, sub_self, abs_zero]
    norm_num
  · rw [rodrigues_off_plus (z1 - x3) (x2 - y1) (y3 - z2) (Real.sin A) (x1 + y2 + z3) y3 z2
      hsne h3ne h1ne hS4 hw_yz rfl, sub_self, abs_zero]
    norm_num
  · rw [rodrigues_diag_aux (x2 - y1) (Real.sin A) (x1 + y2 + z3) z3 hsne h3ne h1ne hS4
      (rotv_sq_z h), sub_self, abs_zero]
    norm_num

/-- C3 counterexample: for the 90° rotation about Z (columns X = (0,1,0),
Y = (-1,0,0), Z = (0,0,1), trace 1, well inside the claimed trace range)
the round trip returns the transpose: the first output vector is
(0,-1,0), so its y component differs from X.y = 1 by 2, far beyond the
claimed 1e-6 reproduction of M. -/
theorem c3_roundtrip_counterexample :
    ¬ |(roundTrip ⟨0, 1, 0⟩ ⟨-1, 0, 0⟩ ⟨0, 0, 1⟩).1.y - (Vec3.mk 0 1 0).y| ≤ 1e-6 := by
  have hM : matrixToRotVec ⟨0, 1, 0⟩ ⟨-1, 0, 0⟩ ⟨0, 0, 1⟩ = (0, 0, Real.pi / 2) := by
    unfold matrixToRotVec
    dsimp only
    rw [if_neg (by norm_num), if_neg (by norm_num),
      show ((0:ℝ) + 0 + 1 - 1) / 2 = 0 by norm_num, Real.arccos_zero, Real.sin_pi_div_two,
      Vec3.normalize_of_unit _ (by norm_num)]
    norm_num
  have hpi2 : (0:ℝ) < Real.pi / 2 := by positivity
  have hR : rotVecToMatrix 0 0 (Real.pi / 2) = (⟨0, -1, 0⟩, ⟨1, 0, 0⟩, ⟨0, 0, 1⟩) := by
    unfold rotVecToMatrix
    dsimp only
    rw [show (0:ℝ) * 0 + 0 * 0 + Real.pi / 2 * (Real.pi / 2) = (Real.pi / 2) ^ 2 by ring,
      Real.sqrt_sq hpi2.le]
    have hge : (1e-6 : ℝ) ≤ Real.pi / 2 := by
      have := Real.pi_gt_three
      linarith
    rw [if_neg (not_lt.mpr hge), Real.cos_pi_div_two, Real.sin_pi_div_two,
      div_self (ne_of_gt hpi2)]
    norm_num
  unfold roundTrip
  rw [hM]
  dsimp only
  rw [hR]
  norm_num

/-- Witness for `c3_roundtrip_transpose`: the 90° rotation about Z. -/
theorem c3_roundtrip_transpose_witness :
    IsRotation 0 (-1) 0 1 0 0 0 0 1 ∧
    (-1 + 1e-6 < (0:ℝ) + 0 + 1 ∧ (0:ℝ) + 0 + 1 < 3 - 1e-6) ∧
    ((|(roundTrip ⟨0, 1, 0⟩ ⟨-1, 0, 0⟩ ⟨0, 0, 1⟩).1.x - 0| ≤ 1e-6 ∧
      |(roundTrip ⟨0, 1, 0⟩ ⟨-1, 0, 0⟩ ⟨0, 0, 1⟩).1.y - (-1)| ≤ 1e-6 ∧
      |(roundTrip ⟨0, 1, 0⟩ ⟨-1, 0, 0⟩ ⟨0, 0, 1⟩).1.z - 0| ≤ 1e-6) ∧
     (|(roundTrip ⟨0, 1, 0⟩ ⟨-1, 0, 0⟩ ⟨0, 0, 1⟩).2.1.x - 1| ≤ 1e-6 ∧
      |(roundTrip ⟨0, 1, 0⟩ ⟨-1, 0, 0⟩ ⟨0, 0, 1⟩).2.1.y - 0| ≤ 1e-6 ∧
      |(roundTrip ⟨0, 1, 0⟩ ⟨-1, 0, 0⟩ ⟨0, 0, 1⟩).2.1.z - 0| ≤ 1e-6) ∧
     (|(roundTrip ⟨0, 1, 0⟩ ⟨-1, 0, 0⟩ ⟨0, 0, 1⟩).2.2.x - 0| ≤ 1e-6 ∧
      |(roundTrip ⟨0, 1, 0⟩ ⟨-1, 0, 0⟩ ⟨0, 0, 1⟩).2.2.y - 0| ≤ 1e-6 ∧
      |(roundTrip ⟨0, 1, 0⟩ ⟨-1, 0, 0⟩ ⟨0, 0, 1⟩).2.2.z - 1| ≤ 1e-6)) := by
  have h : IsRotation 0 (-1) 0 1 0 0 0 0 1 := by
    constructor <;> norm_num
  have h1 : -1 + 1e-6 < (0:ℝ) + 0 + 1 := by norm_num
  have h2 : (0:ℝ) + 0 + 1 < 3 - 1e-6 := by norm_num
  exact ⟨h, ⟨h1, h2⟩, c3_roundtrip_transpose ⟨0, 1, 0⟩ ⟨-1, 0, 0⟩ ⟨0, 0, 1⟩ h h1 h2⟩

/-- C4: the 180°-singularity branch does not recover the rotation axis.
The input matrix (columns X = (0,1,0), Y = (1,0,0), Z = (0,0,-1)) is
exactly the 180° rotation about the unit axis k = (√(1/2), √(1/2), 0) —
the first conjunct certifies this via the Rodrigues formula at angle π —
yet the rotation vector the singular branch returns is far from parallel
to k: the z component of its cross product with k exceeds 1/2 (for a
vector of magnitude ≈ π against a unit k, parallel up to sign within
1e-6 would force this component below ≈ 4e-6).  The slip: the branch
divides the symmetric sums (r12+r21) etc. by 2·sqrt((Rii+1)/2) where
recovering the axis requires 4·sqrt((Rii+1)/2), which doubles the
off-pivot components before normalization. -/
theorem c4_singular_axis_not_parallel :
    rotVecToMatrix (Real.sqrt (1/2) * Real.pi) (Real.sqrt (1/2) * Real.pi) (0 * Real.pi) =
      (⟨0, 1, 0⟩, ⟨1, 0, 0⟩, ⟨0, 0, -1⟩) ∧
    1/2 < (matrixToRotVec ⟨0, 1, 0⟩ ⟨1, 0, 0⟩ ⟨0, 0, -1⟩).1 * Real.sqrt (1/2) -
      (matrixToRotVec ⟨0, 1, 0⟩ ⟨1, 0, 0⟩ ⟨0, 0, -1⟩).2.1 * Real.sqrt (1/2) := by
  have hq0 : (0:ℝ) < Real.sqrt (1/2) := Real.sqrt_pos.mpr (by norm_num)
  have hqq : Real.sqrt (1/2) * Real.sqrt (1/2) = 1/2 := Real.mul_self_sqrt (by norm_num)
  have hpi0 : (0:ℝ) < Real.pi := Real.pi_pos
  constructor
  · unfold rotVecToMatrix
    dsimp only
    have hsum : Real.sqrt (1/2) * Real.pi * (Real.sqrt (1/2) * Real.pi) +
        Real.sqrt (1/2) * Real.pi * (Real.sqrt (1/2) * Real.pi) +
        0 * Real.pi * (0 * Real.pi) = Real.pi ^ 2 := by
      linear_combination (2 * Real.pi ^ 2) * hqq
    rw [hsum, Real.sqrt_sq hpi0.le]
    have hge : (1e-6 : ℝ) ≤ Real.pi := by
      have := Real.pi_gt_three
      linarith
    rw [if_neg (not_lt.mpr hge)]
    simp only [mul_div_cancel_right₀ _ (ne_of_gt hpi0), Real.cos_pi, Real.sin_pi]
    simp only [Prod.mk.injEq, Vec3.mk.injEq]
    refine ⟨⟨?_, ?_, ?_⟩, ⟨?_, ?_, ?_⟩, ?_, ?_, ?_⟩ <;>
      first
      | ring1
      | linear_combination 2 * hqq
  · have hL1 : (1:ℝ) ≤ Real.sqrt (5/2) := by
      rw [show (1:ℝ) = Real.sqrt 1 from (Real.sqrt_one).symm]
      exact Real.sqrt_le_sqrt (by norm_num)
    have hL0 : (0:ℝ) < Real.sqrt (5/2) := lt_of_lt_of_le one_pos hL1
    have hlen : Real.sqrt
        ((1 + 1) / (2 * Real.sqrt (1/2)) * ((1 + 1) / (2 * Real.sqrt (1/2))) +
         Real.sqrt (1/2) * Real.sqrt (1/2) +
         (0 + 0) / (2 * Real.sqrt (1/2)) * ((0 + 0) / (2 * Real.sqrt (1/2)))) =
        Real.sqrt (5/2) := by
      congr 1
      have h1 : (1 + 1) / (2 * Real.sqrt (1/2)) * ((1 + 1) / (2 * Real.sqrt (1/2))) =
          (2:ℝ) := by
        rw [div_mul_div_comm]
        rw [show (2 * Real.sqrt (1/2)) * (2 * Real.sqrt (1/2)) =
          4 * (Real.sqrt (1/2) * Real.sqrt (1/2)) by ring, hqq]
        norm_num
      rw [h1, hqq]
      norm_num
    have hM : matrixToRotVec ⟨0, 1, 0⟩ ⟨1, 0, 0⟩ ⟨0, 0, -1⟩ =
        ((1 + 1) / (2 * Real.sqrt (1/2)) / Real.sqrt (5/2) * 3.141592653589793,
         Real.sqrt (1/2) / Real.sqrt (5/2) * 3.141592653589793,
         (0 + 0) / (2 * Real.sqrt (1/2)) / Real.sqrt (5/2) * 3.141592653589793) := by
      unfold matrixToRotVec
      dsimp only
      rw [if_neg (by norm_num), if_pos (by norm_num), if_neg (by norm_num),
        if_pos (by norm_num), show ((0:ℝ) + 1) / 2 = 1/2 by norm_num]
      unfold Vec3.normalize Vec3.length
      dsimp only
      rw [hlen, if_neg (not_lt.mpr (le_trans (by norm_num) hL1))]
    rw [hM]
    dsimp only
    have e1 : (1 + 1) / (2 * Real.sqrt (1/2)) / Real.sqrt (5/2) * 3.141592653589793 *
        Real.sqrt (1/2) = 3.141592653589793 / Real.sqrt (5/2) := by
      rw [div_div, div_mul_eq_mul_div, div_mul_eq_mul_div,
        div_eq_div_iff (by positivity) (ne_of_gt hL0)]
      ring
    have e2 : Real.sqrt (1/2) / Real.sqrt (5/2) * 3.141592653589793 * Real.sqrt (1/2) =
        3.141592653589793 / (2 * Real.sqrt (5/2)) := by
      rw [div_mul_eq_mul_div, div_mul_eq_mul_div,
        div_eq_div_iff (ne_of_gt hL0) (by positivity)]
      linear_combination (2 * 3.141592653589793 * Real.sqrt (5/2)) * hqq
    rw [e1, e2]
    have e3 : (3.141592653589793 : ℝ) / Real.sqrt (5/2) -
        3.141592653589793 / (2 * Real.sqrt (5/2)) =
        3.141592653589793 / (2 * Real.sqrt (5/2)) := by
      field_simp
      ring
    rw [e3, lt_div_iff₀ (by positivity)]
    have hL2 : Real.sqrt (5/2) < 2 := by
      have h4 : Real.sqrt 4 = 2 := by
        rw [show (4:ℝ) = 2^2 by norm_num]
        exact Real.sqrt_sq (by norm_num)
      have := Real.sqrt_lt_sqrt (by norm_num : (0:ℝ) ≤ 5/2) (by norm_num : (5:ℝ)/2 < 4)
      rw [h4] at this
      exact this
    nlinarith

end EliteExt
